import Mathlib

/-!
Verification of the clock-recovery core of the f401-usb-issue firmware
(src/firmware/src/main.rs): the TIM2 input-capture interrupt handler, the
feedback mailbox, the two-buffer zero-copy sample channel, and the start-up
wiring of the timer handle into the interrupt context.

The embedding is shallow: the ISR becomes a pure step function on an explicit
state, the 32-bit capture counter is a natural number reduced modulo 2^32 where
the Rust code wraps, and the library primitives that live outside this
repository (embassy-sync Signal, embassy-sync zerocopy_channel) are modelled
from the specification, as noted on their definitions.
-/

/-- The modulus of the 32-bit capture counter (`u32` in the source). -/
def U32 : Nat := 2 ^ 32

/-- Rust `u32::wrapping_sub` on natural-number representatives of `u32` values:
`wrapping_sub a b` computes `a - b` modulo `2^32`.  Embeds the expression
`ticks.wrapping_sub(*LAST_TICKS)` at src/firmware/src/main.rs:197. -/
def wrapping_sub (a b : Nat) : Nat := (a + (U32 - b % U32)) % U32

/-- The TIM2 ISR's static mutable state: `LAST_TICKS: u32` and
`FRAME_COUNT: usize` at src/firmware/src/main.rs:181-182.  Both start at 0. -/
structure CaptureState where
  last_ticks : Nat
  frame_count : Nat
deriving DecidableEq, Repr

/-- The TIM2 status/capture registers the handler touches: the channel-1
capture flag `ccif(0)`, the trigger flag `tif`, and the channel-1 capture
register `ccr(0)` read at src/firmware/src/main.rs:188-203. -/
structure Tim2Regs where
  ccif : Bool
  tif : Bool
  ccr : Nat
deriving DecidableEq, Repr

/-- One invocation of the `TIM2` interrupt handler
(src/firmware/src/main.rs:179-205), parametrised by
`P = FEEDBACK_REFRESH_PERIOD.frame_count()`.  Given the handler-entry state of
the static counters and of the timer registers, it returns the handler-exit
counters, the handler-exit registers, and the value published to
`FEEDBACK_SIGNAL` on this invocation, if any.  Reading `ccr` clears the
corresponding `ccif` flag (STM32 capture flags are cleared by reading the
capture register); the handler itself clears `tif` on every path via
`sr().modify(|r| r.set_tif(false))`. -/
def TIM2step (P : Nat) (s : CaptureState) (regs : Tim2Regs) :
    CaptureState × Tim2Regs × Option Nat :=
  if regs.ccif then
    let ticks := regs.ccr
    let regs1 : Tim2Regs := { regs with ccif := false }
    let fc := s.frame_count + 1
    if fc ≥ P then
      (⟨ticks, 0⟩, { regs1 with tif := false }, some (wrapping_sub ticks s.last_ticks))
    else
      (⟨s.last_ticks, fc⟩, { regs1 with tif := false }, none)
  else
    (s, { regs with tif := false }, none)

/-- Iterate the TIM2 handler over a list of handler-entry register snapshots,
returning the final counter state. -/
def TIM2exec (P : Nat) (s : CaptureState) (evs : List Tim2Regs) : CaptureState :=
  evs.foldl (fun st r => (TIM2step P st r).1) s

/-- Run the TIM2 handler over a sequence of capture events (capture flag set on
each, with the given captured tick values), returning the final counter state
and the list of values published to `FEEDBACK_SIGNAL`, in order. -/
def TIM2run (P : Nat) (s : CaptureState) (caps : List Nat) : CaptureState × List Nat :=
  match caps with
  | [] => (s, [])
  | t :: ts =>
    let r := TIM2step P s ⟨true, true, t⟩
    let rest := TIM2run P r.1 ts
    (rest.1, r.2.2.toList ++ rest.2)

/-- C2: for all 32-bit `t0` (last_ticks) and `t1` (capture), the delta the ISR
computes, `t1.wrapping_sub(t0)`, equals the modulo-2^32 difference
`(t1 - t0) mod 2^32` as integers, including when `t1 < t0`. -/
theorem wrapping_sub_eq_emod (t0 t1 : Nat) (h0 : t0 < 2 ^ 32) (_h1 : t1 < 2 ^ 32) :
    (wrapping_sub t1 t0 : Int) = ((t1 : Int) - (t0 : Int)) % 2 ^ 32 := by
  unfold wrapping_sub U32
  rw [Nat.mod_eq_of_lt h0]
  have hle : t0 ≤ 2 ^ 32 := Nat.le_of_lt h0
  push_cast [Nat.cast_sub hle]
  omega

/-- C2 witness: at `last_ticks = 0xFFFFFFF0` and `capture = 0x00000010` the
ISR's delta is `0x20`, matching the modulo-2^32 difference. -/
theorem wrapping_sub_eq_emod_witness :
    (wrapping_sub 0x10 0xFFFFFFF0 : Int) = ((0x10 : Int) - (0xFFFFFFF0 : Int)) % 2 ^ 32 ∧
    wrapping_sub 0x10 0xFFFFFFF0 = 0x20 :=
  ⟨wrapping_sub_eq_emod 0xFFFFFFF0 0x10 (by decide) (by decide), by decide⟩

/-- C1 counterexample: from the initial state `(last_ticks = 0, frame_count = 0)`
with `REFRESH_PERIOD = 4`, the capture sequence `[100, 205, 300, 400, 512]`
publishes the single value `400` (`= 400.wrapping_sub(0)`, since `last_ticks`
is still its initial 0 at the 4th event), not `300` as the claim states. -/
theorem TIM2run_c1_counterexample :
    (TIM2run 4 ⟨0, 0⟩ [100, 205, 300, 400, 512]).2 = [400] ∧
    ¬ (TIM2run 4 ⟨0, 0⟩ [100, 205, 300, 400, 512]).2 = [300] := by
  decide

/-- C1 (amended): from the initial state with `REFRESH_PERIOD = 4`, the capture
sequence `[100, 205, 300, 400, 512]` publishes nothing before the 4th event,
publishes exactly one value equal to `400` (`= 400 - 0`, the initial
`last_ticks` being 0) on the 4th event, and leaves `last_ticks = 400` and
`frame_count = 1` after the 5th event. -/
theorem TIM2run_c1_amended :
    (TIM2run 4 ⟨0, 0⟩ [100]).2 = [] ∧
    (TIM2run 4 ⟨0, 0⟩ [100, 205]).2 = [] ∧
    (TIM2run 4 ⟨0, 0⟩ [100, 205, 300]).2 = [] ∧
    (TIM2run 4 ⟨0, 0⟩ [100, 205, 300, 400]).2 = [400] ∧
    (TIM2run 4 ⟨0, 0⟩ [100, 205, 300, 400, 512]).2 = [400] ∧
    (TIM2run 4 ⟨0, 0⟩ [100, 205, 300, 400, 512]).1 = ⟨400, 1⟩ := by
  decide

/-- One handler invocation preserves the frame-count bound when the refresh
period is at least 1. -/
theorem TIM2step_frame_count_lt (P : Nat) (hP : 1 ≤ P) (s : CaptureState)
    (regs : Tim2Regs) (h : s.frame_count < P) :
    (TIM2step P s regs).1.frame_count < P := by
  by_cases hc : regs.ccif = true
  · by_cases hge : s.frame_count + 1 ≥ P
    · simpa [TIM2step, hc, hge] using hP
    · simp only [TIM2step, hc, hge, if_true, if_false]
      omega
  · simpa [TIM2step, hc] using h

/-- Every state reachable from the initial state satisfies the frame-count
bound. -/
theorem TIM2exec_frame_count_lt (P : Nat) (hP : 1 ≤ P) (evs : List Tim2Regs) :
    (TIM2exec P ⟨0, 0⟩ evs).frame_count < P := by
  suffices h : ∀ s : CaptureState, s.frame_count < P →
      (TIM2exec P s evs).frame_count < P from h ⟨0, 0⟩ (by simpa using hP)
  induction evs with
  | nil => intro s hs; simpa [TIM2exec] using hs
  | cons r rs ih =>
    intro s hs
    have hstep := TIM2step_frame_count_lt P hP s r hs
    simpa [TIM2exec, List.foldl_cons] using ih _ hstep

/-- C3: starting from the initial state, after every sequence of TIM2 handler
invocations (every observation point: the exit of each invocation is the entry
of the next, and the initial state has `frame_count = 0`), `frame_count`
satisfies `0 ≤ frame_count < REFRESH_PERIOD`; and whenever an invocation
publishes to `FEEDBACK_SIGNAL`, `frame_count` is 0 at its exit, i.e.
immediately after the publish. -/
theorem TIM2_frame_count_invariant (P : Nat) (hP : 1 ≤ P) (evs : List Tim2Regs) :
    (TIM2exec P ⟨0, 0⟩ evs).frame_count < P ∧
    ∀ regs : Tim2Regs,
      ((TIM2step P (TIM2exec P ⟨0, 0⟩ evs) regs).2.2).isSome = true →
      (TIM2step P (TIM2exec P ⟨0, 0⟩ evs) regs).1.frame_count = 0 := by
  refine ⟨TIM2exec_frame_count_lt P hP evs, ?_⟩
  intro regs hpub
  by_cases hc : regs.ccif = true
  · by_cases hge : (TIM2exec P ⟨0, 0⟩ evs).frame_count + 1 ≥ P
    · simp [TIM2step, hc, hge]
    · simp [TIM2step, hc, hge] at hpub
  · simp [TIM2step, hc] at hpub

/-- C3 witness at `P = 4` and a concrete three-event history whose next
invocation publishes. -/
theorem TIM2_frame_count_invariant_witness :
    (TIM2exec 4 ⟨0, 0⟩ [⟨true, true, 100⟩, ⟨true, true, 205⟩, ⟨true, true, 300⟩]).frame_count < 4 ∧
    (TIM2step 4 (TIM2exec 4 ⟨0, 0⟩ [⟨true, true, 100⟩, ⟨true, true, 205⟩, ⟨true, true, 300⟩])
        ⟨true, true, 400⟩).1.frame_count = 0 :=
  ⟨(TIM2_frame_count_invariant 4 (by decide)
      [⟨true, true, 100⟩, ⟨true, true, 205⟩, ⟨true, true, 300⟩]).1,
   (TIM2_frame_count_invariant 4 (by decide)
      [⟨true, true, 100⟩, ⟨true, true, 205⟩, ⟨true, true, 300⟩]).2 ⟨true, true, 400⟩ (by decide)⟩

/-- The ISR step as the specification's protocol (§4.1 steps 1-4) words it:
on a capture event increment `frame_count`; if `frame_count == REFRESH_PERIOD`
then compute `delta = wrapping_subtract(capture, last_ticks)`, publish `delta`,
set `last_ticks = capture`, and reset `frame_count` to 0; always clear the
capture-event and trigger flags.  This definition exists only to be compared
with `TIM2step`, which is the code's version (guard `>=` after incrementing,
reset before publishing). -/
def TIM2stepSpec (P : Nat) (s : CaptureState) (regs : Tim2Regs) :
    CaptureState × Tim2Regs × Option Nat :=
  if regs.ccif then
    let capture := regs.ccr
    let fc := s.frame_count + 1
    if fc = P then
      (⟨capture, 0⟩, ⟨false, false, regs.ccr⟩, some (wrapping_sub capture s.last_ticks))
    else
      (⟨s.last_ticks, fc⟩, ⟨false, false, regs.ccr⟩, none)
  else
    (s, { regs with tif := false }, none)

/-- C4: on every state reachable from the initial state, the ISR step written
in the code (`TIM2step`: guard `frame_count >= REFRESH_PERIOD` after
incrementing, reset before publishing, then update `last_ticks`) produces
exactly the same published value, registers, `last_ticks` and `frame_count` as
the specification's step (`TIM2stepSpec`: guard `frame_count == REFRESH_PERIOD`;
publish; set `last_ticks`; reset `frame_count`). -/
theorem TIM2step_refines_spec (P : Nat) (hP : 1 ≤ P) (evs : List Tim2Regs)
    (regs : Tim2Regs) :
    TIM2step P (TIM2exec P ⟨0, 0⟩ evs) regs =
    TIM2stepSpec P (TIM2exec P ⟨0, 0⟩ evs) regs := by
  have hlt := TIM2exec_frame_count_lt P hP evs
  by_cases hc : regs.ccif = true
  · by_cases hge : (TIM2exec P ⟨0, 0⟩ evs).frame_count + 1 ≥ P
    · have heq : (TIM2exec P ⟨0, 0⟩ evs).frame_count + 1 = P := by omega
      simp [TIM2step, TIM2stepSpec, hc, hge, heq]
    · have hne : ¬ (TIM2exec P ⟨0, 0⟩ evs).frame_count + 1 = P := by omega
      simp [TIM2step, TIM2stepSpec, hc, hge, hne]
  · simp [TIM2step, TIM2stepSpec, hc]

/-- C4 witness: code step and spec step agree at `P = 4` on the reachable state
after one capture event, for a publishing invocation. -/
theorem TIM2step_refines_spec_witness :
    TIM2step 4 (TIM2exec 4 ⟨0, 0⟩ [⟨true, true, 100⟩]) ⟨true, true, 205⟩ =
    TIM2stepSpec 4 (TIM2exec 4 ⟨0, 0⟩ [⟨true, true, 100⟩]) ⟨true, true, 205⟩ :=
  TIM2step_refines_spec 4 (by decide) [⟨true, true, 100⟩] ⟨true, true, 205⟩

/-- C7: at the exit of every TIM2 handler invocation, the channel-1
capture-event flag and the trigger-interrupt flag are both clear, whether or
not a publish occurred: `tif` is cleared explicitly on every path
(src/firmware/src/main.rs:203), and `ccif` is either clear on entry (the
handler then leaves it untouched) or cleared by the handler's read of the
capture register (src/firmware/src/main.rs:192). -/
theorem TIM2step_clears_flags (P : Nat) (s : CaptureState) (regs : Tim2Regs) :
    (TIM2step P s regs).2.1.ccif = false ∧ (TIM2step P s regs).2.1.tif = false := by
  by_cases hc : regs.ccif = true
  · by_cases hge : s.frame_count + 1 ≥ P <;> simp [TIM2step, hc, hge]
  · simp only [Bool.not_eq_true] at hc
    simp [TIM2step, hc]

/-- C10: a TIM2 handler invocation in which the channel-1 capture-event flag is
not set leaves `LAST_TICKS` and `FRAME_COUNT` unchanged and publishes nothing;
its only effect is clearing the trigger-interrupt flag. -/
theorem TIM2step_no_capture_frame (P : Nat) (s : CaptureState) (regs : Tim2Regs)
    (h : regs.ccif = false) :
    TIM2step P s regs = (s, { regs with tif := false }, none) := by
  simp [TIM2step, h]

/-- C10 witness: a concrete invocation with the capture flag clear only clears
the trigger flag. -/
theorem TIM2step_no_capture_frame_witness :
    TIM2step 4 ⟨123, 2⟩ ⟨false, true, 77⟩ = (⟨123, 2⟩, ⟨false, false, 77⟩, none) :=
  TIM2step_no_capture_frame 4 ⟨123, 2⟩ ⟨false, true, 77⟩ rfl

/-- Modelled from the spec: the `FEEDBACK_SIGNAL` mailbox (an embassy-sync
`Signal`, declared in the `blus_fw` crate outside src/ and used at
src/firmware/src/main.rs:197).  Per spec §4.2 it is a single-producer,
single-consumer, single-slot mailbox holding 0 or 1 pending feedback value. -/
structure FeedbackSignal where
  pending : Option Nat
deriving DecidableEq, Repr

/-- Modelled from the spec: `publish(v)` on FeedbackSignal is non-blocking (a
total function of the state) and unconditionally overwrites any unread pending
value (spec §4.2). -/
def publish (_s : FeedbackSignal) (v : Nat) : FeedbackSignal :=
  ⟨some v⟩

/-- Modelled from the spec: `await_next()` on FeedbackSignal suspends (modelled
as `none`) until a value has been published since the last consumption, then
returns that value and clears the pending state (spec §4.2). -/
def await_next (s : FeedbackSignal) : Option (Nat × FeedbackSignal) :=
  match s.pending with
  | some v => some (v, ⟨none⟩)
  | none => none

/-- C5: publishing `v1, ..., vN` (`N >= 1`, encoded as the list `l ++ [v]`)
to FeedbackSignal with no intervening consumption never blocks (each publish is
a total state update that overwrites any unread pending value, leaving exactly
the published value pending), and the next `await_next()` returns exactly the
last published value `v`, clearing the slot. -/
theorem publish_overwrites (s : FeedbackSignal) (l : List Nat) (v : Nat) :
    (∀ (t : FeedbackSignal) (w : Nat), (publish t w).pending = some w) ∧
    await_next (List.foldl publish s (l ++ [v])) = some (v, ⟨none⟩) := by
  constructor
  · intro t w
    rfl
  · rw [List.foldl_append]
    rfl

/-- The operations of the SampleChannel (embassy-sync `zerocopy_channel` built
over exactly 2 sample blocks at src/firmware/src/main.rs:138-143): the producer
side acquires a free block and commits it; the consumer side acquires a
committed block and releases it. -/
inductive ChanOp where
  | acquire_for_write
  | commit
  | acquire_for_read
  | release
deriving DecidableEq, Repr

/-- Modelled from the spec: the SampleChannel pool state (spec §3, §4.3).  The
2 pre-allocated SampleBlock instances are partitioned at any instant into
\x7bfree, in-producer, in-consumer, in-flight\x7d; the fields count the blocks
each side owns, so a block counted in one field is owned by exactly that
side. -/
structure SampleChannel where
  free : Nat
  in_producer : Nat
  in_flight : Nat
  in_consumer : Nat
deriving DecidableEq, Repr

/-- The SampleChannel as built at src/firmware/src/main.rs:138-142: both
blocks free, none owned by producer or consumer, none in flight. -/
def chanInit : SampleChannel := ⟨2, 0, 0, 0⟩

/-- Total number of blocks in the pool, over all four ownership classes. -/
def chanTotal (s : SampleChannel) : Nat :=
  s.free + s.in_producer + s.in_flight + s.in_consumer

/-- Modelled from the spec: one SampleChannel operation (spec §4.3).
`acquire_for_write` moves a free block to the producer and suspends (`none`)
when no block is free; `commit` hands a producer-owned block to the in-flight
(committed) queue; `acquire_for_read` moves the oldest committed block to the
consumer and suspends when none is committed; `release` returns a
consumer-owned block to the free pool. -/
def chanStep (s : SampleChannel) : ChanOp → Option SampleChannel
  | .acquire_for_write =>
    if s.free = 0 then none
    else some { s with free := s.free - 1, in_producer := s.in_producer + 1 }
  | .commit =>
    if s.in_producer = 0 then none
    else some { s with in_producer := s.in_producer - 1, in_flight := s.in_flight + 1 }
  | .acquire_for_read =>
    if s.in_flight = 0 then none
    else some { s with in_flight := s.in_flight - 1, in_consumer := s.in_consumer + 1 }
  | .release =>
    if s.in_consumer = 0 then none
    else some { s with in_consumer := s.in_consumer - 1, free := s.free + 1 }

/-- Run a sequence of SampleChannel operations; an operation that suspends (or
has nothing to hand over) leaves the state unchanged. -/
def chanExec (s : SampleChannel) (ops : List ChanOp) : SampleChannel :=
  ops.foldl (fun t op => (chanStep t op).getD t) s

/-- One channel operation preserves the total block count. -/
theorem chanStep_total (s : SampleChannel) (op : ChanOp) :
    chanTotal ((chanStep s op).getD s) = chanTotal s := by
  cases op with
  | acquire_for_write =>
    by_cases h : s.free = 0 <;> simp [chanStep, chanTotal, h]
    omega
  | commit =>
    by_cases h : s.in_producer = 0 <;> simp [chanStep, chanTotal, h]
    omega
  | acquire_for_read =>
    by_cases h : s.in_flight = 0 <;> simp [chanStep, chanTotal, h]
    omega
  | release =>
    by_cases h : s.in_consumer = 0 <;> simp [chanStep, chanTotal, h]
    omega

/-- C6: in every state of the SampleChannel reachable from the 2-block pool by
any operation sequence, the total across \x7bfree, in-producer, in-flight,
in-consumer\x7d is exactly 2 (each block being counted in, hence owned by,
exactly one class); a producer calling `acquire_for_write` with 0 free buffers
suspends; and from a state with 0 free buffers, any operation other than
`release` leaves 0 free buffers, so the producer resumes only after a release
occurs. -/
theorem chan_pool_invariant (ops : List ChanOp) :
    chanTotal (chanExec chanInit ops) = 2 ∧
    (∀ s : SampleChannel, s.free = 0 → chanStep s .acquire_for_write = none) ∧
    (∀ (s : SampleChannel) (op : ChanOp), s.free = 0 → op ≠ ChanOp.release →
      ((chanStep s op).getD s).free = 0) := by
  refine ⟨?_, ?_, ?_⟩
  · suffices h : ∀ s : SampleChannel, chanTotal (chanExec s ops) = chanTotal s by
      simpa [chanInit, chanTotal] using h chanInit
    induction ops with
    | nil => intro s; rfl
    | cons op rest ih =>
      intro s
      calc chanTotal (chanExec ((chanStep s op).getD s) rest)
          = chanTotal ((chanStep s op).getD s) := ih _
        _ = chanTotal s := chanStep_total s op
  · intro s h
    simp [chanStep, h]
  · intro s op h hop
    cases op with
    | acquire_for_write => simp [chanStep, h]
    | commit => by_cases hp : s.in_producer = 0 <;> simp [chanStep, hp, h]
    | acquire_for_read => by_cases hp : s.in_flight = 0 <;> simp [chanStep, hp, h]
    | release => exact absurd rfl hop

/-- C6 witness: after producer acquire and commit of both blocks the pool still
totals 2; a concrete full state with 0 free blocks suspends the producer; and a
commit from a 0-free state keeps 0 free. -/
theorem chan_pool_invariant_witness :
    chanTotal (chanExec chanInit
      [ChanOp.acquire_for_write, ChanOp.commit, ChanOp.acquire_for_write, ChanOp.commit]) = 2 ∧
    chanStep ⟨0, 1, 1, 0⟩ ChanOp.acquire_for_write = none ∧
    ((chanStep ⟨0, 1, 1, 0⟩ ChanOp.commit).getD ⟨0, 1, 1, 0⟩).free = 0 :=
  ⟨(chan_pool_invariant
      [ChanOp.acquire_for_write, ChanOp.commit, ChanOp.acquire_for_write, ChanOp.commit]).1,
   (chan_pool_invariant []).2.1 ⟨0, 1, 1, 0⟩ rfl,
   (chan_pool_invariant []).2.2 ⟨0, 1, 1, 0⟩ ChanOp.commit rfl (by decide)⟩

/-- An operation sequence that only the producer side performs: `streaming_task`
receives only the sender half (`usb_sender`, src/firmware/src/main.rs:174),
while the receiver half is bound to the unused `_usb_receiver`
(src/firmware/src/main.rs:143) and never passed to any task, so
`acquire_for_read` and `release` are never performed. -/
def producer_only (ops : List ChanOp) : Prop :=
  ∀ op ∈ ops, op = ChanOp.acquire_for_write ∨ op = ChanOp.commit

/-- Producer-side operations never free a block: from a state with 0 free
blocks, a producer-only sequence keeps 0 free blocks. -/
theorem chanExec_producer_only_free (ops : List ChanOp) (h : producer_only ops)
    (s : SampleChannel) (hs : s.free = 0) : (chanExec s ops).free = 0 := by
  induction ops generalizing s with
  | nil => simpa [chanExec] using hs
  | cons op rest ih =>
    have hop := h op (List.mem_cons_self op rest)
    have hrest : producer_only rest := fun o ho => h o (List.mem_cons_of_mem op ho)
    have hstep : ((chanStep s op).getD s).free = 0 := by
      rcases hop with hw | hc
      · subst hw
        simp [chanStep, hs]
      · subst hc
        by_cases hp : s.in_producer = 0 <;> simp [chanStep, hp, hs]
    simpa [chanExec, List.foldl_cons] using ih hrest _ hstep

/-- C9: since the consumer endpoint is discarded at startup, only producer-side
operations ever run.  Once the streaming producer has committed both blocks
(acquire, commit, acquire, commit from the initial pool), the free count is 0,
and after any further producer-only operation sequence it remains 0, so every
subsequent `acquire_for_write` suspends: the producer never resumes. -/
theorem chan_producer_starves (ops : List ChanOp) (h : producer_only ops) :
    (chanExec chanInit
      [ChanOp.acquire_for_write, ChanOp.commit, ChanOp.acquire_for_write, ChanOp.commit]).free
        = 0 ∧
    (chanExec (chanExec chanInit
      [ChanOp.acquire_for_write, ChanOp.commit, ChanOp.acquire_for_write, ChanOp.commit])
        ops).free = 0 ∧
    chanStep (chanExec (chanExec chanInit
      [ChanOp.acquire_for_write, ChanOp.commit, ChanOp.acquire_for_write, ChanOp.commit])
        ops) ChanOp.acquire_for_write = none := by
  have h0 : (chanExec chanInit
      [ChanOp.acquire_for_write, ChanOp.commit, ChanOp.acquire_for_write, ChanOp.commit]).free
        = 0 := by decide
  have h1 := chanExec_producer_only_free ops h _ h0
  exact ⟨h0, h1, by simp [chanStep, h1]⟩

/-- C9 witness: after both blocks are committed, one more `acquire_for_write`
attempt leaves 0 free blocks and the next `acquire_for_write` still suspends. -/
theorem chan_producer_starves_witness :
    (chanExec (chanExec chanInit
      [ChanOp.acquire_for_write, ChanOp.commit, ChanOp.acquire_for_write, ChanOp.commit])
        [ChanOp.acquire_for_write]).free = 0 ∧
    chanStep (chanExec (chanExec chanInit
      [ChanOp.acquire_for_write, ChanOp.commit, ChanOp.acquire_for_write, ChanOp.commit])
        [ChanOp.acquire_for_write]) ChanOp.acquire_for_write = none :=
  ⟨(chan_producer_starves [ChanOp.acquire_for_write]
      (by intro op hop; rcases List.mem_singleton.mp hop with rfl; exact Or.inl rfl)).2.1,
   (chan_producer_starves [ChanOp.acquire_for_write]
      (by intro op hop; rcases List.mem_singleton.mp hop with rfl; exact Or.inl rfl)).2.2⟩

/-- The start-up actions of `main` that the TIM2 handler depends on, in program
order: storing the live timer handle into the `TIMER` cell
(src/firmware/src/main.rs:166) and then unmasking the TIM2 interrupt in the
NVIC (src/firmware/src/main.rs:168-170). -/
inductive InitAction where
  | store_timer
  | unmask_tim2
deriving DecidableEq, Repr

/-- The state `main` and the TIM2 handler share: the `TIMER` cell's contents
(`None` until the handle is stored; the handle itself carries no data the
claims need, so it is `Unit`) and whether the TIM2 interrupt is unmasked. -/
structure SystemState where
  timer_cell : Option Unit
  tim2_unmasked : Bool
deriving DecidableEq, Repr

/-- The state at reset: `TIMER` holds `None` (src/firmware/src/main.rs:26-27)
and the TIM2 interrupt is masked. -/
def bootState : SystemState := ⟨none, false⟩

/-- Effect of one start-up action on the shared state. -/
def initStep (s : SystemState) : InitAction → SystemState
  | .store_timer => { s with timer_cell := some () }
  | .unmask_tim2 => { s with tim2_unmasked := true }

/-- Run a sequence of start-up actions from a state. -/
def initExec (s : SystemState) (acts : List InitAction) : SystemState :=
  acts.foldl initStep s

/-- The order in which `main` performs the two actions
(src/firmware/src/main.rs:166-170): store the timer handle first, unmask the
interrupt second. -/
def mainInitActions : List InitAction := [.store_timer, .unmask_tim2]

/-- C8: at every point of `main`'s initialization order (every prefix of its
action sequence), if the TIM2 interrupt is unmasked then the `TIMER` cell
holds `Some`; hence whenever the TIM2 handler can run, its `.unwrap()` of the
cell contents (src/firmware/src/main.rs:186) cannot hit the `None` panic
branch. -/
theorem TIMER_some_when_unmasked (n : Nat)
    (h : (initExec bootState (mainInitActions.take n)).tim2_unmasked = true) :
    (initExec bootState (mainInitActions.take n)).timer_cell.isSome = true := by
  match n with
  | 0 => simp [mainInitActions, initExec, bootState] at h
  | 1 => simp [mainInitActions, initExec, bootState, initStep, List.take] at h
  | (k + 2) =>
    have htake : mainInitActions.take (k + 2) = mainInitActions := by
      simp [mainInitActions, List.take]
    rw [htake]
    rfl

/-- C8 witness: after both start-up actions the interrupt is unmasked and the
`TIMER` cell indeed holds `Some`. -/
theorem TIMER_some_when_unmasked_witness :
    (initExec bootState (mainInitActions.take 2)).timer_cell.isSome = true :=
  TIMER_some_when_unmasked 2 rfl
